import Mathlib

/-!
Verification of the record/replay interception engine of jest-mock-recorder
(src/index.ts). The stateful TypeScript code is embedded as pure Lean
functions: one intercepted call is a step from a recording store (an
association list from serialized-argument key to entry) to an observable
result carrying the returned outcome, the updated in-memory store, the file
write performed (if any), and whether the original function was invoked.
Promise-shaped values are tagged explicitly; the process-wide flag
MOCK_RECORDER is an Option String read at call time.
-/

set_option maxHeartbeats 1000000

namespace MockRecorder

/-- One recorded entry, the (promise, data) record stored per key in the
Recording type of the source. -/
structure Entry where
  promise : Bool
  data : String
deriving DecidableEq

/-- The recording store, Record from string to entry in the source, modelled
as an association list keyed by the serialized arguments. -/
abbrev Recording := List (String × Entry)

/-- A small model of JavaScript runtime values, enough to express the
truthiness of decoded payloads. -/
inductive JSValue where
  | vNull
  | vUndefined
  | vBool (b : Bool)
  | vNum (n : Int)
  | vStr (s : String)
deriving DecidableEq

/-- JavaScript truthiness of a value. -/
def JSValue.truthy : JSValue → Bool
  | .vNull => false
  | .vUndefined => false
  | .vBool b => b
  | .vNum n => n != 0
  | .vStr s => s != ""

/-- The result of a serializer call, string or Promise of string in the
source; the payload of the deferred constructor is the eventual string. -/
inductive SerResult where
  | str (s : String)
  | deferred (s : String)
deriving DecidableEq

/-- Awaiting a serializer result, as the record path does on its deferred
branch. -/
def SerResult.resolve : SerResult → String
  | .str s => s
  | .deferred s => s

/-- The result of invoking the original function: a synchronous value, or a
promise resolving to a value (detected in the source by data.then being a
function). -/
inductive OrigResult (α : Type) where
  | sync (v : α)
  | async (v : α)
deriving DecidableEq

/-- What an intercepted call yields to its caller: a synchronous value, a
promise resolving to a value, a synchronously thrown error message, or a
rejected promise carrying an error message. -/
inductive Outcome (α : Type) where
  | value (v : α)
  | promise (v : α)
  | thrown (e : String)
  | rejected (e : String)
deriving DecidableEq

/-- Whether an outcome is deferred (promise shaped), counting both a
resolving and a rejecting promise. -/
def Outcome.deferredShape {α : Type} : Outcome α → Bool
  | .value _ => false
  | .promise _ => true
  | .thrown _ => false
  | .rejected _ => true

/-- The observable effect of one intercepted call: the outcome handed to the
caller, the in-memory recording afterwards, the full mapping written to the
backing file during the call (none when no write happened), and whether the
original function was invoked. -/
structure StepResult (α : Type) where
  outcome : Outcome α
  recording : Recording
  write : Option Recording
  origInvoked : Bool
deriving DecidableEq

/-- The serializer and deserializer pair after defaulting, as createMock
computes them from the options. -/
structure SerDeCfg (α : Type) where
  serializer : α → SerResult
  deserializer : String → α

/-- printArgs from the source: keys longer than 20 characters are truncated
to their first 20 characters followed by three dots. -/
def printArgs (arg : String) : String :=
  if arg.length > 20 then arg.take 20 ++ "..." else arg

/-- The mock name built by mockClass and mockObject: subject name, a dot,
then the method name. -/
def mkMockName (subjectName methodName : String) : String :=
  subjectName ++ "." ++ methodName

/-- The message of the error thrown on a replay-only miss. -/
def notFoundMsg (mockName serilizedArgs : String) : String :=
  "MOCK_RECORDER is not set to \"record\" but no recording found for "
    ++ mockName ++ " with args " ++ printArgs serilizedArgs ++ "."

/-- The message of the error thrown when a deferred serializer result meets a
synchronous original result. -/
def promiseSerializerMsg : String :=
  "Promise based serializer only supported when the original function returned Promise."

/-- The message of the error thrown when a deferred argument-serializer key
meets a synchronous inner result. -/
def promiseArgsSerializerMsg : String :=
  "Promise based argument serializer only supported when the original function returned Promise."

/-- JavaScript object assignment on the store. The record path only assigns
keys that were just found absent, so prepending is faithful: lookup finds the
new entry and no duplicate key is observable. -/
def recSet (recording : Recording) (key : String) (e : Entry) : Recording :=
  (key, e) :: recording

/-- The hit path return: a promise of the decoded data when the stored entry
was flagged as a promise, the decoded data directly otherwise. -/
def replayOutcome {α : Type} (cfg : SerDeCfg α) (e : Entry) : Outcome α :=
  if e.promise then .promise (cfg.deserializer e.data)
  else .value (cfg.deserializer e.data)

/-- mockImplementation from createMock: one sequential invocation with an
already resolved string key. In the source the hit test evaluates the
conjunction of the looked-up entry with a freshly built record; that record
is an object, hence truthy, so the test is exactly key presence. The mode is
the MOCK_RECORDER environment value read at call time; originalFn, applied to
the unit value on the branches where the source applies the original
function, produces the original call result. -/
def mockImplementation {α : Type} (cfg : SerDeCfg α) (mockName : String)
    (mode : Option String) (serilizedArgs : String)
    (originalFn : Unit → OrigResult α) (recording : Recording) : StepResult α :=
  match recording.lookup serilizedArgs with
  | some entry => ⟨replayOutcome cfg entry, recording, none, false⟩
  | none =>
      if mode ≠ some ("record") then
        ⟨.thrown (notFoundMsg mockName serilizedArgs), recording, none, false⟩
      else
        match originalFn () with
        | .async r =>
            let updated := recSet recording serilizedArgs ⟨true, (cfg.serializer r).resolve⟩
            ⟨.promise r, updated, some updated, true⟩
        | .sync data =>
            match cfg.serializer data with
            | .str serialized =>
                let updated := recSet recording serilizedArgs ⟨false, serialized⟩
                ⟨.value data, updated, some updated, true⟩
            | .deferred _ =>
                ⟨.thrown promiseSerializerMsg, recording, none, true⟩

/-- The derived argument key, string or Promise of string, as produced by the
argument serializer or the default JSON serialization of the arguments. -/
inductive KeyResult where
  | str (s : String)
  | deferred (s : String)
deriving DecidableEq

/-- The returned mock wrapper from createMock. A string key runs
mockImplementation directly. A deferred key returns a promise chain that
resolves the key, runs mockImplementation, and checks that the inner result
has a then function: a synchronous inner value makes the chain reject with
the argument-serializer contract error, a synchronous throw inside the chain
becomes a rejection, and an inner promise is flattened into the chain. -/
def mock {α : Type} (cfg : SerDeCfg α) (mockName : String) (mode : Option String)
    (serilizedArgs : KeyResult) (originalFn : Unit → OrigResult α)
    (recording : Recording) : StepResult α :=
  match serilizedArgs with
  | .str s => mockImplementation cfg mockName mode s originalFn recording
  | .deferred s =>
      let r := mockImplementation cfg mockName mode s originalFn recording
      ⟨(match r.outcome with
        | .value _ => .rejected promiseArgsSerializerMsg
        | .promise v => .promise v
        | .thrown e => .rejected e
        | .rejected e => .rejected e),
       r.recording, r.write, r.origInvoked⟩

/-- The options record. Each folder field distinguishes absent (none),
explicit null (some none) and a provided string (some (some s)); the unit
test name is only string or absent, per its declared type. -/
structure MockRecorderOptions where
  unitTestName : Option String
  unitTestFolder : Option (Option String)
  fixtureFolder : Option (Option String)

/-- Optional chaining on the options for a folder field: undefined when the
options record itself is absent. -/
def optChainFolder (opts : Option MockRecorderOptions)
    (f : MockRecorderOptions → Option (Option String)) : Option (Option String) :=
  match opts with
  | none => none
  | some o => f o

/-- Optional chaining on the options for the unit test name. -/
def optChainName (opts : Option MockRecorderOptions) : Option String :=
  match opts with
  | none => none
  | some o => o.unitTestName

/-- Nullish coalescing of a string-or-null-or-undefined value with a default:
only a provided string escapes the default. -/
def nullishOr (x : Option (Option String)) (d : String) : String :=
  match x with
  | some (some s) => s
  | _ => d

/-- getFileName from the source: the segment list handed to path.join. Each
folder spread keeps its segment exactly when the chained field is not the
explicit null, coalescing undefined to the default folder name. -/
def getFileName (cwd : String) (opts : Option MockRecorderOptions)
    (mockName : String) : List String :=
  [cwd]
    ++ (if optChainFolder opts MockRecorderOptions.unitTestFolder = some none then []
        else [nullishOr (optChainFolder opts MockRecorderOptions.unitTestFolder) ("__tests__")])
    ++ (if optChainFolder opts MockRecorderOptions.fixtureFolder = some none then []
        else [nullishOr (optChainFolder opts MockRecorderOptions.fixtureFolder) ("_fixtures")])
    ++ [(optChainName opts).getD ("__default__"), mockName ++ ".json"]

/-- One folder segment as the specification words it: an explicit null omits
the segment entirely, an absent value uses the default, a provided string is
used as given. -/
def specFolderSeg (field : Option (Option String)) (dflt : String) : List String :=
  match field with
  | some none => []
  | none => [dflt]
  | some (some s) => [s]

/-- The file path layout as the specification words it: cwd, then the unit
test folder defaulting to the tests folder name, then the fixture folder
defaulting to the fixtures folder name (each omitted on explicit null), then
the unit test name defaulting to the default session name, then the mock name
with a json extension. -/
def specPathLayout (cwd : String) (opts : Option MockRecorderOptions)
    (mockName : String) : List String :=
  [cwd]
    ++ specFolderSeg (optChainFolder opts MockRecorderOptions.unitTestFolder) ("__tests__")
    ++ specFolderSeg (optChainFolder opts MockRecorderOptions.fixtureFolder) ("_fixtures")
    ++ [(optChainName opts).getD ("__default__"), mockName ++ ".json"]

/-- An identity-like configuration on strings, used for concrete witnesses. -/
def cfgId : SerDeCfg String :=
  ⟨SerResult.str, fun s => s⟩

/-- A configuration on JavaScript values whose deserializer returns the falsy
null value, used for concrete witnesses. -/
def cfgNull : SerDeCfg JSValue :=
  ⟨fun _ => SerResult.str ("null"), fun _ => JSValue.vNull⟩

/-- A configuration on strings whose serializer is deferred, used for
concrete witnesses. -/
def cfgDeferredSer : SerDeCfg String :=
  ⟨SerResult.deferred, fun s => s⟩

/-- A concrete synchronous original returning a fixed string. -/
def origSyncV : Unit → OrigResult String :=
  fun _ => .sync ("v")

/-- A concrete asynchronous original resolving to a fixed string. -/
def origAsyncV : Unit → OrigResult String :=
  fun _ => .async ("v")

/-- A concrete synchronous original on JavaScript values. -/
def origSyncNull : Unit → OrigResult JSValue :=
  fun _ => .sync JSValue.vNull

theorem lookup_recSet (recording : Recording) (k : String) (e : Entry) :
    (recSet recording k e).lookup k = some e := by
  simp [recSet, List.lookup]

theorem mockImplementation_hit {α : Type} (cfg : SerDeCfg α) (mockName : String)
    (mode : Option String) (k : String) (originalFn : Unit → OrigResult α)
    (recording : Recording) (e : Entry) (h : recording.lookup k = some e) :
    mockImplementation cfg mockName mode k originalFn recording =
      ⟨replayOutcome cfg e, recording, none, false⟩ := by
  simp [mockImplementation, h]

theorem mockImplementation_replayOnlyMiss {α : Type} (cfg : SerDeCfg α) (mockName : String)
    (mode : Option String) (k : String) (originalFn : Unit → OrigResult α)
    (recording : Recording) (hMiss : recording.lookup k = none)
    (hMode : mode ≠ some ("record")) :
    mockImplementation cfg mockName mode k originalFn recording =
      ⟨.thrown (notFoundMsg mockName k), recording, none, false⟩ := by
  simp [mockImplementation, hMiss, hMode]

theorem mockImplementation_record_async {α : Type} (cfg : SerDeCfg α) (mockName : String)
    (k : String) (originalFn : Unit → OrigResult α) (recording : Recording) (r : α)
    (hMiss : recording.lookup k = none) (hOrig : originalFn () = .async r) :
    mockImplementation cfg mockName (some ("record")) k originalFn recording =
      ⟨.promise r, recSet recording k ⟨true, (cfg.serializer r).resolve⟩,
        some (recSet recording k ⟨true, (cfg.serializer r).resolve⟩), true⟩ := by
  simp [mockImplementation, hMiss, hOrig]

theorem mockImplementation_record_syncStr {α : Type} (cfg : SerDeCfg α) (mockName : String)
    (k : String) (originalFn : Unit → OrigResult α) (recording : Recording) (v : α)
    (s : String) (hMiss : recording.lookup k = none) (hOrig : originalFn () = .sync v)
    (hSer : cfg.serializer v = .str s) :
    mockImplementation cfg mockName (some ("record")) k originalFn recording =
      ⟨.value v, recSet recording k ⟨false, s⟩, some (recSet recording k ⟨false, s⟩), true⟩ := by
  simp [mockImplementation, hMiss, hOrig, hSer]

theorem mockImplementation_record_syncDeferred {α : Type} (cfg : SerDeCfg α)
    (mockName : String) (k : String) (originalFn : Unit → OrigResult α)
    (recording : Recording) (v : α) (s : String) (hMiss : recording.lookup k = none)
    (hOrig : originalFn () = .sync v) (hSer : cfg.serializer v = .deferred s) :
    mockImplementation cfg mockName (some ("record")) k originalFn recording =
      ⟨.thrown promiseSerializerMsg, recording, none, true⟩ := by
  simp [mockImplementation, hMiss, hOrig, hSer]

theorem write_mem_key {α : Type} (cfg : SerDeCfg α) (mockName : String)
    (mode : Option String) (k : String) (originalFn : Unit → OrigResult α)
    (recording recording2 : Recording)
    (h : (mockImplementation cfg mockName mode k originalFn recording).write = some recording2) :
    ∃ e, recording2.lookup k = some e := by
  cases hl : recording.lookup k with
  | some e =>
      rw [mockImplementation_hit cfg mockName mode k originalFn recording e hl] at h
      simp at h
  | none =>
      by_cases hm : mode = some ("record")
      · subst hm
        cases ho : originalFn () with
        | async r =>
            rw [mockImplementation_record_async cfg mockName k originalFn recording r hl ho] at h
            obtain rfl : recSet recording k ⟨true, (cfg.serializer r).resolve⟩ = recording2 := by
              simpa using h
            exact ⟨_, lookup_recSet recording k _⟩
        | sync v =>
            cases hs : cfg.serializer v with
            | str s =>
                rw [mockImplementation_record_syncStr cfg mockName k originalFn recording v s hl ho hs] at h
                obtain rfl : recSet recording k ⟨false, s⟩ = recording2 := by
                  simpa using h
                exact ⟨_, lookup_recSet recording k _⟩
            | deferred s =>
                rw [mockImplementation_record_syncDeferred cfg mockName k originalFn recording v s hl ho hs] at h
                simp at h
      · rw [mockImplementation_replayOnlyMiss cfg mockName mode k originalFn recording hl hm] at h
        simp at h

theorem mock_deferredKey_eq {α : Type} (cfg : SerDeCfg α) (mockName : String)
    (mode : Option String) (s : String) (originalFn : Unit → OrigResult α)
    (recording : Recording) :
    mock cfg mockName mode (.deferred s) originalFn recording =
      ⟨(match (mockImplementation cfg mockName mode s originalFn recording).outcome with
        | .value _ => .rejected promiseArgsSerializerMsg
        | .promise v => .promise v
        | .thrown e => .rejected e
        | .rejected e => .rejected e),
       (mockImplementation cfg mockName mode s originalFn recording).recording,
       (mockImplementation cfg mockName mode s originalFn recording).write,
       (mockImplementation cfg mockName mode s originalFn recording).origInvoked⟩ := rfl

/-- C1: once a call under record mode has successfully recorded an entry for a
key (witnessed by the file write it performed), every subsequent sequential
call on that key, under any mode and any original, returns the decoded stored
value on the replay path without invoking the original, leaves the store
unchanged and performs no write, so the stored entry is never overwritten. -/
theorem claim1_idempotent_replay {α : Type} (cfg : SerDeCfg α) (mockName : String)
    (k : String) (originalFn : Unit → OrigResult α) (recording recording2 : Recording)
    (h : (mockImplementation cfg mockName (some ("record")) k originalFn recording).write
        = some recording2) :
    ∃ e, recording2.lookup k = some e ∧
      ∀ (mode : Option String) (originalFn2 : Unit → OrigResult α),
        mockImplementation cfg mockName mode k originalFn2 recording2 =
          ⟨replayOutcome cfg e, recording2, none, false⟩ := by
  obtain ⟨e, he⟩ := write_mem_key cfg mockName (some ("record")) k originalFn recording recording2 h
  exact ⟨e, he, fun mode originalFn2 =>
    mockImplementation_hit cfg mockName mode k originalFn2 recording2 e he⟩

/-- Witness for C1: a concrete successful record of a synchronous value under
the identity string configuration, with its replay consequences. -/
theorem claim1_idempotent_replay_witness :
    (mockImplementation cfgId ("A.m") (some ("record")) ("k") origSyncV []).write
        = some [(("k" : String), (⟨false, "v"⟩ : Entry))] ∧
    (∃ e, (([(("k" : String), (⟨false, "v"⟩ : Entry))] : Recording)).lookup ("k") = some e ∧
      ∀ (mode : Option String) (originalFn2 : Unit → OrigResult String),
        mockImplementation cfgId ("A.m") mode ("k") originalFn2
            [(("k" : String), (⟨false, "v"⟩ : Entry))] =
          ⟨replayOutcome cfgId e, [(("k" : String), (⟨false, "v"⟩ : Entry))], none, false⟩) :=
  ⟨rfl, claim1_idempotent_replay cfgId ("A.m") ("k") origSyncV [] _ rfl⟩

/-- C2: on a miss with the mode flag anything other than the record string
(including unset), the call throws an error whose message names the
subject-dot-method mock name and the truncated key preview, the original is
not invoked, the store is unchanged and no file write happens. -/
theorem claim2_replay_only_miss {α : Type} (cfg : SerDeCfg α)
    (subjectName methodName : String) (mode : Option String) (k : String)
    (originalFn : Unit → OrigResult α) (recording : Recording)
    (hMiss : recording.lookup k = none) (hMode : mode ≠ some ("record")) :
    mockImplementation cfg (mkMockName subjectName methodName) mode k originalFn recording =
      ⟨.thrown ("MOCK_RECORDER is not set to \"record\" but no recording found for "
          ++ (subjectName ++ "." ++ methodName) ++ " with args " ++ printArgs k ++ "."),
        recording, none, false⟩ := by
  rw [mockImplementation_replayOnlyMiss cfg (mkMockName subjectName methodName) mode k
      originalFn recording hMiss hMode]
  rfl

/-- Witness for C2: a concrete replay-only miss with an unset mode flag. -/
theorem claim2_replay_only_miss_witness :
    (([] : Recording)).lookup ("k") = none ∧ (none : Option String) ≠ some ("record") ∧
    mockImplementation cfgId (mkMockName ("A") ("m")) none ("k") origSyncV [] =
      ⟨.thrown ("MOCK_RECORDER is not set to \"record\" but no recording found for "
          ++ (("A" : String) ++ "." ++ "m") ++ " with args " ++ printArgs ("k") ++ "."),
        [], none, false⟩ :=
  ⟨rfl, by decide,
    claim2_replay_only_miss cfgId ("A") ("m") none ("k") origSyncV [] rfl (by decide)⟩

/-- C3: on a miss under record mode the original is invoked; a deferred
original result is awaited, encoded (awaiting a deferred encoder), stored
flagged as a promise, the whole updated mapping is written to the file, and
the caller gets a promise of the real resolved value; a synchronous original
result with a synchronous encoding is stored flagged as non-promise, the
whole updated mapping is written to the file, and the real value is returned
directly. Each successful record performs its own write of the full store. -/
theorem claim3_record_path {α : Type} (cfg : SerDeCfg α) (mockName k : String)
    (originalFn : Unit → OrigResult α) (recording : Recording)
    (hMiss : recording.lookup k = none) :
    (∀ r : α, originalFn () = .async r →
        mockImplementation cfg mockName (some ("record")) k originalFn recording =
          ⟨.promise r, recSet recording k ⟨true, (cfg.serializer r).resolve⟩,
            some (recSet recording k ⟨true, (cfg.serializer r).resolve⟩), true⟩) ∧
    (∀ (v : α) (s : String), originalFn () = .sync v → cfg.serializer v = .str s →
        mockImplementation cfg mockName (some ("record")) k originalFn recording =
          ⟨.value v, recSet recording k ⟨false, s⟩, some (recSet recording k ⟨false, s⟩),
            true⟩) :=
  ⟨fun r hOrig => mockImplementation_record_async cfg mockName k originalFn recording r hMiss hOrig,
   fun v s hOrig hSer =>
     mockImplementation_record_syncStr cfg mockName k originalFn recording v s hMiss hOrig hSer⟩

/-- Witness for C3: concrete records of an asynchronous and a synchronous
original under the identity string configuration. -/
theorem claim3_record_path_witness :
    mockImplementation cfgId ("A.m") (some ("record")) ("k") origAsyncV [] =
      ⟨.promise ("v"), [(("k" : String), (⟨true, "v"⟩ : Entry))],
        some [(("k" : String), (⟨true, "v"⟩ : Entry))], true⟩ ∧
    mockImplementation cfgId ("A.m") (some ("record")) ("k") origSyncV [] =
      ⟨.value ("v"), [(("k" : String), (⟨false, "v"⟩ : Entry))],
        some [(("k" : String), (⟨false, "v"⟩ : Entry))], true⟩ :=
  ⟨(claim3_record_path cfgId ("A.m") ("k") origAsyncV [] rfl).1 ("v") rfl,
   (claim3_record_path cfgId ("A.m") ("k") origSyncV [] rfl).2 ("v") ("v") rfl rfl⟩

/-- C4: shape preservation under the synchronous default key derivation. A
recording call for a deferred original yields a deferred result and stores
the promise flag set; a recording call for a synchronous original (with a
synchronous encoding) yields a synchronous result and stores the promise flag
clear; and every replay call has exactly the shape dictated by the stored
promise flag, so both paths preserve the original calling convention. -/
theorem claim4_shape_preservation {α : Type} (cfg : SerDeCfg α) (mockName k : String)
    (originalFn : Unit → OrigResult α) (recording : Recording)
    (hMiss : recording.lookup k = none) :
    (∀ r : α, originalFn () = .async r →
        (mockImplementation cfg mockName (some ("record")) k originalFn
            recording).outcome.deferredShape = true ∧
        (mockImplementation cfg mockName (some ("record")) k originalFn
            recording).recording.lookup k = some ⟨true, (cfg.serializer r).resolve⟩) ∧
    (∀ (v : α) (s : String), originalFn () = .sync v → cfg.serializer v = .str s →
        (mockImplementation cfg mockName (some ("record")) k originalFn
            recording).outcome.deferredShape = false ∧
        (mockImplementation cfg mockName (some ("record")) k originalFn
            recording).recording.lookup k = some ⟨false, s⟩) ∧
    (∀ (recording3 : Recording) (e : Entry) (mode : Option String)
        (originalFn3 : Unit → OrigResult α), recording3.lookup k = some e →
        (mockImplementation cfg mockName mode k originalFn3
            recording3).outcome.deferredShape = e.promise) := by
  refine ⟨?_, ?_, ?_⟩
  · intro r hOrig
    rw [mockImplementation_record_async cfg mockName k originalFn recording r hMiss hOrig]
    exact ⟨rfl, lookup_recSet recording k _⟩
  · intro v s hOrig hSer
    rw [mockImplementation_record_syncStr cfg mockName k originalFn recording v s hMiss hOrig hSer]
    exact ⟨rfl, lookup_recSet recording k _⟩
  · intro recording3 e mode originalFn3 hHit
    rw [mockImplementation_hit cfg mockName mode k originalFn3 recording3 e hHit]
    cases hp : e.promise <;> simp [replayOutcome, Outcome.deferredShape, hp]

/-- Witness for C4: concrete shape checks for an asynchronous record, a
synchronous record, and replays driven by each stored flag value. -/
theorem claim4_shape_preservation_witness :
    ((mockImplementation cfgId ("A.m") (some ("record")) ("k") origAsyncV
        []).outcome.deferredShape = true ∧
      (mockImplementation cfgId ("A.m") (some ("record")) ("k") origAsyncV
        []).recording.lookup ("k") = some ⟨true, "v"⟩) ∧
    ((mockImplementation cfgId ("A.m") (some ("record")) ("k") origSyncV
        []).outcome.deferredShape = false) ∧
    ((mockImplementation cfgId ("A.m") none ("k") origSyncV
        [(("k" : String), (⟨true, "v"⟩ : Entry))]).outcome.deferredShape = true) ∧
    ((mockImplementation cfgId ("A.m") none ("k") origSyncV
        [(("k" : String), (⟨false, "v"⟩ : Entry))]).outcome.deferredShape = false) :=
  ⟨(claim4_shape_preservation cfgId ("A.m") ("k") origAsyncV [] rfl).1 ("v") rfl,
   ((claim4_shape_preservation cfgId ("A.m") ("k") origSyncV [] rfl).2.1 ("v") ("v") rfl rfl).1,
   (claim4_shape_preservation cfgId ("A.m") ("k") origSyncV [] rfl).2.2
     [(("k" : String), (⟨true, "v"⟩ : Entry))] ⟨true, "v"⟩ none origSyncV rfl,
   (claim4_shape_preservation cfgId ("A.m") ("k") origSyncV [] rfl).2.2
     [(("k" : String), (⟨false, "v"⟩ : Entry))] ⟨false, "v"⟩ none origSyncV rfl⟩

/-- C5: when the derived key is deferred, the mock returns a deferred result
in every case (a resolving or a rejecting promise, never a synchronous value
or a synchronous throw), and whenever the inner invocation result turns out
to be a synchronous value the returned promise rejects with the
argument-serializer contract error. -/
theorem claim5_deferred_key {α : Type} (cfg : SerDeCfg α) (mockName : String)
    (mode : Option String) (s : String) (originalFn : Unit → OrigResult α)
    (recording : Recording) :
    (mock cfg mockName mode (.deferred s) originalFn recording).outcome.deferredShape = true ∧
    (∀ v : α, (mockImplementation cfg mockName mode s originalFn recording).outcome = .value v →
      (mock cfg mockName mode (.deferred s) originalFn recording).outcome =
        .rejected promiseArgsSerializerMsg) := by
  rw [mock_deferredKey_eq cfg mockName mode s originalFn recording]
  constructor
  · cases (mockImplementation cfg mockName mode s originalFn recording).outcome <;> rfl
  · intro v hv
    rw [hv]

/-- Witness for C5: a deferred key over a synchronous record-mode call, whose
inner result is the synchronous real value, makes the mock reject. -/
theorem claim5_deferred_key_witness :
    (mockImplementation cfgId ("A.m") (some ("record")) ("k") origSyncV []).outcome
        = .value ("v") ∧
    (mock cfgId ("A.m") (some ("record")) (.deferred ("k")) origSyncV []).outcome =
      .rejected promiseArgsSerializerMsg :=
  ⟨rfl,
   (claim5_deferred_key cfgId ("A.m") (some ("record")) ("k") origSyncV []).2 ("v") rfl⟩

/-- C6: a miss under record mode where the original returns synchronously but
the configured encoder returns a deferred value throws the codec contract
error; the original was invoked, but the store is unchanged and no file write
happens on this synchronous path. -/
theorem claim6_deferred_codec_sync_orig {α : Type} (cfg : SerDeCfg α) (mockName k : String)
    (originalFn : Unit → OrigResult α) (recording : Recording) (v : α) (s : String)
    (hMiss : recording.lookup k = none) (hOrig : originalFn () = .sync v)
    (hSer : cfg.serializer v = .deferred s) :
    mockImplementation cfg mockName (some ("record")) k originalFn recording =
      ⟨.thrown promiseSerializerMsg, recording, none, true⟩ :=
  mockImplementation_record_syncDeferred cfg mockName k originalFn recording v s hMiss hOrig hSer

/-- Witness for C6: the deferred-serializer configuration applied to a
synchronous original at a concrete miss. -/
theorem claim6_deferred_codec_sync_orig_witness :
    (([] : Recording)).lookup ("k") = none ∧
    origSyncV () = .sync ("v") ∧ cfgDeferredSer.serializer ("v") = .deferred ("v") ∧
    mockImplementation cfgDeferredSer ("A.m") (some ("record")) ("k") origSyncV [] =
      ⟨.thrown promiseSerializerMsg, [], none, true⟩ :=
  ⟨rfl, rfl, rfl,
   claim6_deferred_codec_sync_orig cfgDeferredSer ("A.m") ("k") origSyncV [] ("v") ("v")
     rfl rfl rfl⟩

/-- C7: the diagnostic preview of a key is the key itself when its length is
at most 20 characters, and its first 20 characters followed by three dots
(23 characters in total) when it is longer; lookup in the interception step
always uses the full untruncated key. -/
theorem claim7_key_preview (k : String) :
    (k.length ≤ 20 → printArgs k = k) ∧
    (20 < k.length → printArgs k = k.take 20 ++ "..." ∧ (printArgs k).length = 23) ∧
    (∀ {α : Type} (cfg : SerDeCfg α) (mockName : String) (mode : Option String)
        (originalFn : Unit → OrigResult α) (recording : Recording) (e : Entry),
        recording.lookup k = some e →
        mockImplementation cfg mockName mode k originalFn recording =
          ⟨replayOutcome cfg e, recording, none, false⟩) := by
  refine ⟨?_, ?_, ?_⟩
  · intro h
    simp [printArgs, Nat.not_lt.mpr h]
  · intro h
    have h1 : printArgs k = k.take 20 ++ "..." := by
      simp [printArgs, h]
    refine ⟨h1, ?_⟩
    rw [h1, String.length_append]
    have h2 : (k.take 20).length = 20 := by
      rw [String.take_eq, String.length_mk, List.length_take]
      have h3 : k.1.length = k.length := rfl
      omega
    rw [h2]
    rfl
  · intro α cfg mockName mode originalFn recording e hHit
    exact mockImplementation_hit cfg mockName mode k originalFn recording e hHit

/-- Witness for C7: a short key is kept whole, a 25-character key is cut to a
23-character preview, and a concrete hit is looked up by the full key. -/
theorem claim7_key_preview_witness :
    printArgs ("k") = "k" ∧
    (printArgs ("abcdefghijklmnopqrstuvwxy")).length = 23 ∧
    mockImplementation cfgId ("A.m") none ("k") origSyncV
        [(("k" : String), (⟨false, "v"⟩ : Entry))] =
      ⟨replayOutcome cfgId ⟨false, "v"⟩, [(("k" : String), (⟨false, "v"⟩ : Entry))],
        none, false⟩ :=
  ⟨(claim7_key_preview ("k")).1 (by decide),
   ((claim7_key_preview ("abcdefghijklmnopqrstuvwxy")).2.1 (by decide)).2,
   (claim7_key_preview ("k")).2.2 cfgId ("A.m") none origSyncV
     [(("k" : String), (⟨false, "v"⟩ : Entry))] ⟨false, "v"⟩ rfl⟩

/-- C8: the recording file path segments are the working directory, the unit
test folder (default value when absent, omitted entirely on explicit null),
the fixture folder (likewise), the unit test name (default value when
absent), and the mock name with the json extension, exactly as the
specification lays the path out. -/
theorem claim8_file_path_layout (cwd : String) (opts : Option MockRecorderOptions)
    (mockName : String) :
    getFileName cwd opts mockName = specPathLayout cwd opts mockName := by
  cases opts with
  | none => rfl
  | some o =>
      obtain ⟨n, utf, ff⟩ := o
      rcases utf with _ | (_ | s) <;> rcases ff with _ | (_ | t) <;> rfl

/-- C9: hit detection is by key presence only. When the store has an entry
for the key, the call replays the decoded payload without invoking the
original even when that decoded payload is a falsy JavaScript value, because
the hit test checks a freshly built record object, which is always truthy. -/
theorem claim9_falsy_hit (cfg : SerDeCfg JSValue) (mockName : String)
    (mode : Option String) (k : String) (originalFn : Unit → OrigResult JSValue)
    (recording : Recording) (e : Entry) (hHit : recording.lookup k = some e)
    (_hFalsy : (cfg.deserializer e.data).truthy = false) :
    mockImplementation cfg mockName mode k originalFn recording =
      ⟨replayOutcome cfg e, recording, none, false⟩ :=
  mockImplementation_hit cfg mockName mode k originalFn recording e hHit

/-- Witness for C9: a stored entry decoding to the falsy null value still
replays synchronously without invoking the original. -/
theorem claim9_falsy_hit_witness :
    (cfgNull.deserializer ("null")).truthy = false ∧
    mockImplementation cfgNull ("A.m") none ("k") origSyncNull
        [(("k" : String), (⟨false, "null"⟩ : Entry))] =
      ⟨.value JSValue.vNull, [(("k" : String), (⟨false, "null"⟩ : Entry))], none, false⟩ :=
  ⟨rfl,
   claim9_falsy_hit cfgNull ("A.m") none ("k") origSyncNull
     [(("k" : String), (⟨false, "null"⟩ : Entry))] ⟨false, "null"⟩ rfl rfl⟩

/-- C10: no atomicity on the deferred-key error path. Under record mode with
a deferred key, a miss and a synchronous original with a synchronous
encoding, the original is invoked, the entry is stored and the full mapping
written to the file, and yet the call fails with a rejected promise carrying
the argument-serializer contract error. -/
theorem claim10_deferred_key_mutation {α : Type} (cfg : SerDeCfg α) (mockName k : String)
    (originalFn : Unit → OrigResult α) (recording : Recording) (v : α) (s : String)
    (hMiss : recording.lookup k = none) (hOrig : originalFn () = .sync v)
    (hSer : cfg.serializer v = .str s) :
    mock cfg mockName (some ("record")) (.deferred k) originalFn recording =
      ⟨.rejected promiseArgsSerializerMsg, recSet recording k ⟨false, s⟩,
        some (recSet recording k ⟨false, s⟩), true⟩ ∧
    (recSet recording k ⟨false, s⟩).lookup k = some ⟨false, s⟩ := by
  constructor
  · rw [mock_deferredKey_eq cfg mockName (some ("record")) k originalFn recording,
      mockImplementation_record_syncStr cfg mockName k originalFn recording v s hMiss hOrig hSer]
  · exact lookup_recSet recording k _

/-- Witness for C10: the concrete deferred-key record-mode call that both
persists the entry and rejects. -/
theorem claim10_deferred_key_mutation_witness :
    mock cfgId ("A.m") (some ("record")) (.deferred ("k")) origSyncV [] =
      ⟨.rejected promiseArgsSerializerMsg, [(("k" : String), (⟨false, "v"⟩ : Entry))],
        some [(("k" : String), (⟨false, "v"⟩ : Entry))], true⟩ ∧
    (([(("k" : String), (⟨false, "v"⟩ : Entry))] : Recording)).lookup ("k")
        = some ⟨false, "v"⟩ :=
  claim10_deferred_key_mutation cfgId ("A.m") ("k") origSyncV [] ("v") ("v") rfl rfl rfl

end MockRecorder
